import Mathlib

set_option maxHeartbeats 1000000

namespace EC2AsgCopy

/-- A fetched auto scaling group, holding the boto AutoScalingGroup
attributes that copy_auto_scaling_group reads from the source group
(lines 99 to 114) and the name read at line 132. -/
structure Group where
  name : Option String
  load_balancers : List String
  availability_zones : List String
  min_size : Nat
  max_size : Nat
  desired_capacity : Nat
  vpc_zone_identifier : String
  connection : Nat
  tags : List String
  health_check_period : Nat
  health_check_type : String
  default_cooldown : Nat
  termination_policies : List String
deriving DecidableEq

/-- A launch configuration; the module only threads it through to the new
group (lines 95 to 97 and 104). -/
structure LaunchConfig where
  name : Option String
deriving DecidableEq

/-- A scaling policy: its group reference (mutated at line 132) and its
scaling adjustment (tested at line 134). -/
structure Policy where
  as_group : Option String
  scaling_adjustment : Int
deriving DecidableEq

/-- A cloudwatch metric alarm: a name and a dimension map whose
AutoScalingGroupName entry is rewritten at line 140. -/
structure Alarm where
  name : String
  dimensions : List (String × Option String)
deriving DecidableEq

/-- The group object built at lines 99 to 114 and submitted for creation. -/
structure AutoScalingGroup where
  group_name : Option String
  load_balancers : List String
  availability_zones : List String
  launch_config : LaunchConfig
  min_size : Nat
  max_size : Nat
  desired_capacity : Nat
  vpc_zone_identifier : String
  connection : Nat
  tags : List String
  health_check_period : Nat
  health_check_type : String
  default_cooldown : Nat
  termination_policies : List String
deriving DecidableEq

/-- The module parameter dictionary: one optional field per key that the
source reads with module.params.get, plus the keys declared by main.
An absent key reads as none, as dict.get returns None. -/
structure Params where
  region : Option String
  source_asg_name : Option String
  name : Option String
  group_name : Option String
  launch_config_name : Option String
  load_balancers : Option String
  wait_for_instances : Option Bool
  wait_timeout : Option Nat
deriving DecidableEq

/-- The cloud API surface the module calls. Lookup calls are pure functions
of their query; creation calls return none on success and some message when
the provider rejects the call with a BotoServerError. The two polling
fields model the health signals the spec wait step observes. -/
structure Cloud where
  get_all_groups : List (Option String) → List Group
  get_all_policies : Option String → List Policy
  get_all_launch_configurations : List (Option String) → List LaunchConfig
  describe_alarms : List String → List Alarm
  create_auto_scaling_group : AutoScalingGroup → Option String
  create_scaling_policy : Policy → Option String
  create_alarm : Alarm → Option String
  viable_instances : Nat → Nat
  elb_in_service : Nat → Bool

/-- One observable cloud call recorded by the embedding: the launch
configuration lookup, the creations, and the alarm lookups. -/
inductive Call where
  | getLaunchConfigs (names : List (Option String))
  | createGroup (ag : AutoScalingGroup)
  | createPolicy (p : Policy)
  | describeAlarms (names : List String)
  | createAlarm (a : Alarm)
deriving DecidableEq

/-- How a run of copy_auto_scaling_group ends: the normal return of
(changed, asg_properties), a module.fail_json exit with its message, the
modelled wait timeout, or an uncaught IndexError from an element zero
access on an empty lookup result. -/
inductive Outcome where
  | ok (changed : Bool) (props : Group)
  | failJson (msg : String)
  | timeoutError
  | indexError
deriving DecidableEq

/-- How the policy and alarm loop of lines 131 to 141 ends. -/
inductive LoopExit where
  | done
  | indexErr
  | botoErr (msg : String)
deriving DecidableEq

/-- The dimension key rewritten at line 140. -/
def asgKey : String := "AutoScalingGroupName"

/-- Python str.format of an optional string: None formats as the text None. -/
def optStr : Option String → String
  | some s => s
  | none => "None"

/-- Python truthiness of an optional string: None and the empty string are
falsy, every other string is truthy. -/
def truthyStr : Option String → Bool
  | none => false
  | some s => !s.isEmpty

/-- The conditional expression at lines 101 to 102: [load_balancers] if
load_balancers else source_group.load_balancers. -/
def lbChoice (load_balancers : Option String) (src : List String) : List String :=
  match load_balancers with
  | some s => if s.isEmpty then src else [s]
  | none => src

/-- Dictionary update, for the dimension assignment at line 140. -/
def setDim : List (String × Option String) → String → Option String → List (String × Option String)
  | [], k, v => [(k, v)]
  | (k2, v2) :: rest, k, v =>
    if k2 = k then (k, v) :: rest else (k2, v2) :: setDim rest k v

/-- Dictionary lookup on a dimension map. -/
def getDim : List (String × Option String) → String → Option (Option String)
  | [], _ => none
  | (k2, v2) :: rest, k => if k2 = k then some v2 else getDim rest k

/-- The alarm naming convention of lines 134 to 137: a strictly positive
scaling adjustment selects the ScaleUp alarm of the source group, any other
adjustment selects the ScaleDown alarm. -/
def alarmNameFor (source_asg_name : Option String) (p : Policy) : String :=
  if p.scaling_adjustment > 0 then optStr source_asg_name ++ "-ScaleUp"
  else optStr source_asg_name ++ "-ScaleDown"

/-- The AutoScalingGroup construction at lines 99 to 114: name, launch
configuration and the load balancer choice are substituted, every other
attribute is copied from the source group. -/
def mkNewGroup (group_name : Option String) (load_balancers : Option String)
    (source_group : Group) (launch_config : LaunchConfig) : AutoScalingGroup :=
  { group_name := group_name
    load_balancers := lbChoice load_balancers source_group.load_balancers
    availability_zones := source_group.availability_zones
    launch_config := launch_config
    min_size := source_group.min_size
    max_size := source_group.max_size
    desired_capacity := source_group.desired_capacity
    vpc_zone_identifier := source_group.vpc_zone_identifier
    connection := source_group.connection
    tags := source_group.tags
    health_check_period := source_group.health_check_period
    health_check_type := source_group.health_check_type
    default_cooldown := source_group.default_cooldown
    termination_policies := source_group.termination_policies }

/-- Modelled from the spec: the helper wait_for_new_inst called at line 119
is not defined anywhere in this repository, and the call site also names the
undefined identifiers connection and desired_capacity. Per the spec wait
step, it blocks until the desired number of instances in the new group
report healthy and times out once wait_timeout elapses. Time is modelled as
poll ticks: the wait succeeds exactly when some tick up to the timeout shows
at least the desired count of viable instances. -/
def wait_for_new_inst (wait_timeout : Option Nat) (desired : Nat)
    (health : Nat → Nat) : Bool :=
  match wait_timeout with
  | some t => (List.range (t + 1)).any (fun i => decide (desired ≤ health i))
  | none => false

/-- Modelled from the spec: the helper wait_for_elb called at line 126 is
not defined anywhere in this repository. Per the spec wait step, it blocks
until the group is fully registered with its load balancers, timing out
after wait_timeout elapses. -/
def wait_for_elb (wait_timeout : Option Nat) (registered : Nat → Bool) : Bool :=
  match wait_timeout with
  | some t => (List.range (t + 1)).any registered
  | none => false

/-- The loop over the source policies at lines 131 to 141: rewrite the
group reference of the policy, create it, look up the conventionally named
alarm of the source group, take element zero, rewrite its group dimension
and create it. A BotoServerError from a creation call aborts into the
fail_json handler; an empty alarm lookup aborts with an IndexError. -/
def policyLoop (env : Cloud) (source_asg_name new_name : Option String) :
    List Policy → List Call × LoopExit
  | [] => ([], LoopExit.done)
  | policy :: rest =>
    let policy2 : Policy := { policy with as_group := new_name }
    match env.create_scaling_policy policy2 with
    | some msg => ([Call.createPolicy policy2], LoopExit.botoErr msg)
    | none =>
      let alarm_name := alarmNameFor source_asg_name policy2
      match env.describe_alarms [alarm_name] with
      | [] =>
        ([Call.createPolicy policy2, Call.describeAlarms [alarm_name]],
          LoopExit.indexErr)
      | alarm :: _ =>
        let alarm2 : Alarm :=
          { alarm with
            dimensions := setDim alarm.dimensions asgKey new_name }
        match env.create_alarm alarm2 with
        | some msg =>
          ([Call.createPolicy policy2, Call.describeAlarms [alarm_name],
            Call.createAlarm alarm2], LoopExit.botoErr msg)
        | none =>
          let res := policyLoop env source_asg_name new_name rest
          (Call.createPolicy policy2 :: Call.describeAlarms [alarm_name] ::
            Call.createAlarm alarm2 :: res.1, res.2)

/-- Lines 128 to 146 after a successful creation and wait: refetch the new
group by name, take element zero, read its properties, then run the policy
and alarm loop with the refetched name. -/
def finishClone (env : Cloud) (params : Params) (source_policies : List Policy)
    (pre : List Call) : List Call × Outcome :=
  match env.get_all_groups [params.group_name] with
  | [] => (pre, Outcome.indexError)
  | as_group :: _ =>
    match policyLoop env params.source_asg_name as_group.name source_policies with
    | (calls, LoopExit.done) => (pre ++ calls, Outcome.ok true as_group)
    | (calls, LoopExit.indexErr) => (pre ++ calls, Outcome.indexError)
    | (calls, LoopExit.botoErr msg) => (pre ++ calls, Outcome.failJson msg)

/-- Shallow embedding of copy_auto_scaling_group, lines 72 to 150. The
first component is the trace of observable cloud calls, the second the
outcome. Line 83 of the source assigns the launch_config_name parameter
value to the load_balancers variable, which this embedding reproduces by
passing params.launch_config_name as the load balancer override. -/
def copy_auto_scaling_group (env : Cloud) (params : Params) :
    List Call × Outcome :=
  match env.get_all_groups [params.source_asg_name] with
  | [source_group] =>
    let source_policies := env.get_all_policies params.source_asg_name
    match env.get_all_launch_configurations [params.launch_config_name] with
    | [] => ([Call.getLaunchConfigs [params.launch_config_name]], Outcome.indexError)
    | launch_config :: _ =>
      let ag := mkNewGroup params.group_name params.launch_config_name
        source_group launch_config
      let pre := [Call.getLaunchConfigs [params.launch_config_name],
        Call.createGroup ag]
      match env.create_auto_scaling_group ag with
      | some msg => (pre, Outcome.failJson msg)
      | none =>
        if params.wait_for_instances = some true then
          if wait_for_new_inst params.wait_timeout ag.desired_capacity
              env.viable_instances then
            if wait_for_elb params.wait_timeout env.elb_in_service then
              finishClone env params source_policies pre
            else (pre, Outcome.timeoutError)
          else (pre, Outcome.timeoutError)
        else finishClone env params source_policies pre
  | _ =>
    ([], Outcome.failJson (("Unable to find source group ") ++
      optStr params.source_asg_name))

/-- The parameter dictionary produced by main, lines 153 to 160: the
argument spec declares exactly the keys region, source_asg_name and name,
so every other key that copy_auto_scaling_group reads is absent. The AWS
connection keys contributed by ec2_argument_spec are not among the keys the
copy function reads and are not modelled. -/
def main_params (region source_asg_name name : String) : Params :=
  { region := some region
    source_asg_name := some source_asg_name
    name := some name
    group_name := none
    launch_config_name := none
    load_balancers := none
    wait_for_instances := none
    wait_timeout := none }

/-- Selector for alarm lookup calls in a trace. -/
def callAlarmQuery : Call → Option (List String)
  | Call.describeAlarms ns => some ns
  | _ => none

/-- The alarm name lists looked up during a run, in order. -/
def alarmQueries (calls : List Call) : List (List String) :=
  calls.filterMap callAlarmQuery

/-- Selector for policy creation calls in a trace. -/
def callCreatedPolicy : Call → Option Policy
  | Call.createPolicy p => some p
  | _ => none

/-- The policies submitted for creation during a run, in order. -/
def createdPolicies (calls : List Call) : List Policy :=
  calls.filterMap callCreatedPolicy

/-- A concrete source group used to exercise the embedding. -/
def gSrc : Group :=
  { name := some ("src")
    load_balancers := ["elb-src"]
    availability_zones := ["us-east-1a"]
    min_size := 2
    max_size := 10
    desired_capacity := 4
    vpc_zone_identifier := "subnet-1"
    connection := 7
    tags := ["tagA"]
    health_check_period := 300
    health_check_type := "EC2"
    default_cooldown := 120
    termination_policies := ["Default"] }

/-- The new group as the cloud reports it after creation. -/
def gNew : Group :=
  { gSrc with name := some ("new"), load_balancers := ["lc-new"] }

/-- A concrete launch configuration. -/
def lcNew : LaunchConfig := { name := some ("lc-new") }

/-- A scale up policy of the source group. -/
def pUp : Policy := { as_group := some ("src"), scaling_adjustment := 1 }

/-- A scale down policy of the source group. -/
def pDown : Policy := { as_group := some ("src"), scaling_adjustment := -1 }

/-- The conventionally named scale up alarm of the source group. -/
def alarmUp : Alarm :=
  { name := "src-ScaleUp"
    dimensions := [(asgKey, some ("src"))] }

/-- The conventionally named scale down alarm of the source group. -/
def alarmDown : Alarm :=
  { name := "src-ScaleDown"
    dimensions := [(asgKey, some ("src"))] }

/-- A concrete cloud in which every lookup and creation succeeds. -/
def envA : Cloud :=
  { get_all_groups := fun ns =>
      if ns = [some ("src")] then [gSrc]
      else if ns = [some ("new")] then [gNew] else []
    get_all_policies := fun g => if g = some ("src") then [pUp, pDown] else []
    get_all_launch_configurations := fun ns =>
      if ns = [some ("lc-new")] then [lcNew] else []
    describe_alarms := fun ns =>
      if ns = ["src-ScaleUp"] then [alarmUp]
      else if ns = ["src-ScaleDown"] then [alarmDown] else []
    create_auto_scaling_group := fun _ => none
    create_scaling_policy := fun _ => none
    create_alarm := fun _ => none
    viable_instances := fun _ => 4
    elb_in_service := fun _ => true }

/-- Concrete invocation parameters: the load_balancers key is absent. -/
def paramsA : Params :=
  { region := some ("us-east-1")
    source_asg_name := some ("src")
    name := some ("NewASG")
    group_name := some ("new")
    launch_config_name := some ("lc-new")
    load_balancers := none
    wait_for_instances := none
    wait_timeout := none }

/-- The group the embedding builds for envA and paramsA. -/
def agA : AutoScalingGroup := mkNewGroup (some ("new")) (some ("lc-new")) gSrc lcNew

theorem getDim_setDim (d : List (String × Option String)) (k : String)
    (v : Option String) : getDim (setDim d k v) k = some v := by
  induction d with
  | nil => simp [setDim, getDim]
  | cons h t ih =>
    obtain ⟨k2, v2⟩ := h
    by_cases hk : k2 = k
    · simp [setDim, getDim, hk]
    · simp [setDim, getDim, hk, ih]

theorem policyLoop_calls_shape (env : Cloud) (sn nn : Option String)
    (ps : List Policy) :
    ∀ c ∈ (policyLoop env sn nn ps).1,
      (∃ p, c = Call.createPolicy p ∧ p.as_group = nn) ∨
      (∃ ns, c = Call.describeAlarms ns) ∨
      (∃ a, c = Call.createAlarm a ∧ getDim a.dimensions asgKey = some nn) := by
  induction ps with
  | nil => intro c hc; simp [policyLoop] at hc
  | cons policy rest ih =>
    intro c hc
    simp only [policyLoop] at hc
    split at hc
    · simp only [List.mem_singleton] at hc
      subst hc
      exact Or.inl ⟨_, rfl, rfl⟩
    · split at hc
      · simp only [List.mem_cons, List.not_mem_nil, or_false] at hc
        rcases hc with hc | hc
        · subst hc; exact Or.inl ⟨_, rfl, rfl⟩
        · subst hc; exact Or.inr (Or.inl ⟨_, rfl⟩)
      · split at hc
        · simp only [List.mem_cons, List.not_mem_nil, or_false] at hc
          rcases hc with hc | hc | hc
          · subst hc; exact Or.inl ⟨_, rfl, rfl⟩
          · subst hc; exact Or.inr (Or.inl ⟨_, rfl⟩)
          · subst hc
            exact Or.inr (Or.inr ⟨_, rfl, getDim_setDim _ _ _⟩)
        · simp only [List.mem_cons] at hc
          rcases hc with hc | hc | hc | hc
          · subst hc; exact Or.inl ⟨_, rfl, rfl⟩
          · subst hc; exact Or.inr (Or.inl ⟨_, rfl⟩)
          · subst hc
            exact Or.inr (Or.inr ⟨_, rfl, getDim_setDim _ _ _⟩)
          · exact ih c hc

theorem finishClone_calls_shape (env : Cloud) (params : Params)
    (sp : List Policy) (pre : List Call) :
    ∀ c ∈ (finishClone env params sp pre).1,
      c ∈ pre ∨
      ∃ asg rest, env.get_all_groups [params.group_name] = asg :: rest ∧
        c ∈ (policyLoop env params.source_asg_name asg.name sp).1 := by
  intro c hc
  unfold finishClone at hc
  split at hc
  · exact Or.inl hc
  next asg rest heq =>
    split at hc
    next calls hloop =>
      have hcalls : calls = (policyLoop env params.source_asg_name asg.name sp).1 := by
        rw [hloop]
      simp only [List.mem_append] at hc
      rcases hc with h | h
      · exact Or.inl h
      · exact Or.inr ⟨asg, rest, heq, hcalls ▸ h⟩
    next calls hloop =>
      have hcalls : calls = (policyLoop env params.source_asg_name asg.name sp).1 := by
        rw [hloop]
      simp only [List.mem_append] at hc
      rcases hc with h | h
      · exact Or.inl h
      · exact Or.inr ⟨asg, rest, heq, hcalls ▸ h⟩
    next calls msg hloop =>
      have hcalls : calls = (policyLoop env params.source_asg_name asg.name sp).1 := by
        rw [hloop]
      simp only [List.mem_append] at hc
      rcases hc with h | h
      · exact Or.inl h
      · exact Or.inr ⟨asg, rest, heq, hcalls ▸ h⟩

theorem copy_calls_shape (env : Cloud) (params : Params) :
    ∀ c ∈ (copy_auto_scaling_group env params).1,
      c = Call.getLaunchConfigs [params.launch_config_name] ∨
      (∃ g lc lrest,
        env.get_all_groups [params.source_asg_name] = [g] ∧
        env.get_all_launch_configurations [params.launch_config_name] =
          lc :: lrest ∧
        c = Call.createGroup
          (mkNewGroup params.group_name params.launch_config_name g lc)) ∨
      (∃ asg rest,
        env.get_all_groups [params.group_name] = asg :: rest ∧
        c ∈ (policyLoop env params.source_asg_name asg.name
          (env.get_all_policies params.source_asg_name)).1) := by
  intro c hc
  rcases hsg : env.get_all_groups [params.source_asg_name] with _ | ⟨g, _ | ⟨g2, gt⟩⟩
  · simp [copy_auto_scaling_group, hsg] at hc
  · rcases hlc : env.get_all_launch_configurations [params.launch_config_name]
      with _ | ⟨lc, lt⟩
    · simp only [copy_auto_scaling_group, hsg, hlc, List.mem_singleton] at hc
      exact Or.inl hc
    · have hpre : ∀ d ∈ [Call.getLaunchConfigs [params.launch_config_name],
          Call.createGroup
            (mkNewGroup params.group_name params.launch_config_name g lc)],
          d = Call.getLaunchConfigs [params.launch_config_name] ∨
          (∃ g2 lc2 lrest,
            ([g] : List Group) = [g2] ∧
            (lc :: lt : List LaunchConfig) = lc2 :: lrest ∧
            d = Call.createGroup
              (mkNewGroup params.group_name params.launch_config_name g2 lc2)) := by
        intro d hd
        simp only [List.mem_cons, List.not_mem_nil, or_false] at hd
        rcases hd with hd | hd
        · exact Or.inl hd
        · exact Or.inr ⟨g, lc, lt, rfl, rfl, hd⟩
      have hfin : ∀ hc2 : c ∈ (finishClone env params
          (env.get_all_policies params.source_asg_name)
          [Call.getLaunchConfigs [params.launch_config_name],
            Call.createGroup
              (mkNewGroup params.group_name params.launch_config_name g lc)]).1,
          c = Call.getLaunchConfigs [params.launch_config_name] ∨
          (∃ g2 lc2 lrest,
            ([g] : List Group) = [g2] ∧
            (lc :: lt : List LaunchConfig) = lc2 :: lrest ∧
            c = Call.createGroup
              (mkNewGroup params.group_name params.launch_config_name g2 lc2)) ∨
          (∃ asg rest,
            env.get_all_groups [params.group_name] = asg :: rest ∧
            c ∈ (policyLoop env params.source_asg_name asg.name
              (env.get_all_policies params.source_asg_name)).1) := by
        intro hc2
        rcases finishClone_calls_shape env params _ _ c hc2 with h | h
        · rcases hpre c h with h2 | h2
          · exact Or.inl h2
          · exact Or.inr (Or.inl h2)
        · exact Or.inr (Or.inr h)
      rcases hcr : env.create_auto_scaling_group
          (mkNewGroup params.group_name params.launch_config_name g lc)
        with _ | msg
      · by_cases hw : params.wait_for_instances = some true
        · by_cases h1 : wait_for_new_inst params.wait_timeout
              (mkNewGroup params.group_name params.launch_config_name g
                lc).desired_capacity env.viable_instances
          · by_cases h2 : wait_for_elb params.wait_timeout env.elb_in_service
            · simp only [copy_auto_scaling_group, hsg, hlc, hcr, hw, h1, h2,
                if_true, if_pos] at hc
              exact hfin hc
            · simp only [copy_auto_scaling_group, hsg, hlc, hcr, hw, h1, h2,
                if_true, if_pos, if_neg, Bool.false_eq_true] at hc
              exact (hpre c hc).imp id Or.inl
          · simp only [copy_auto_scaling_group, hsg, hlc, hcr, hw, h1,
              if_true, if_pos, if_neg, Bool.false_eq_true] at hc
            exact (hpre c hc).imp id Or.inl
        · simp only [copy_auto_scaling_group, hsg, hlc, hcr, hw, if_neg] at hc
          exact hfin hc
      · simp only [copy_auto_scaling_group, hsg, hlc, hcr] at hc
        exact (hpre c hc).imp id Or.inl
  · simp [copy_auto_scaling_group, hsg] at hc

theorem alarmQueries_append (a b : List Call) :
    alarmQueries (a ++ b) = alarmQueries a ++ alarmQueries b := by
  simp [alarmQueries]

theorem createdPolicies_append (a b : List Call) :
    createdPolicies (a ++ b) = createdPolicies a ++ createdPolicies b := by
  simp [createdPolicies]

theorem policyLoop_queries (env : Cloud) (sn nn : Option String)
    (ps : List Policy) :
    alarmQueries (policyLoop env sn nn ps).1 =
      ((createdPolicies (policyLoop env sn nn ps).1).take
        (alarmQueries (policyLoop env sn nn ps).1).length).map
        (fun p => [alarmNameFor sn p]) := by
  induction ps with
  | nil => simp [policyLoop, alarmQueries, createdPolicies]
  | cons policy rest ih =>
    simp only [policyLoop]
    split
    · simp [alarmQueries, createdPolicies, callAlarmQuery, callCreatedPolicy]
    · split
      · simp [alarmQueries, createdPolicies, callAlarmQuery, callCreatedPolicy]
      · split
        · simp [alarmQueries, createdPolicies, callAlarmQuery, callCreatedPolicy]
        · simp only [alarmQueries, createdPolicies, List.filterMap_cons,
            callAlarmQuery, callCreatedPolicy, List.length_cons,
            List.take_succ_cons, List.map_cons, List.cons.injEq, true_and]
          exact ih

theorem policyLoop_done_lengths (env : Cloud) (sn nn : Option String)
    (ps : List Policy)
    (h : (policyLoop env sn nn ps).2 = LoopExit.done) :
    (alarmQueries (policyLoop env sn nn ps).1).length =
      (createdPolicies (policyLoop env sn nn ps).1).length := by
  induction ps with
  | nil => simp [policyLoop, alarmQueries, createdPolicies]
  | cons policy rest ih =>
    revert h
    simp only [policyLoop]
    split
    · intro h; simp at h
    · split
      · intro h; simp at h
      · split
        · intro h; simp at h
        · intro h
          simp only [alarmQueries, createdPolicies, List.filterMap_cons,
            callAlarmQuery, callCreatedPolicy, List.length_cons,
            Nat.succ.injEq]
          exact ih h

theorem finishClone_no_timeout (env : Cloud) (params : Params)
    (sp : List Policy) (pre : List Call) :
    (finishClone env params sp pre).2 ≠ Outcome.timeoutError := by
  unfold finishClone
  split
  · simp
  · split <;> simp

theorem finishClone_queries (env : Cloud) (params : Params) (sp : List Policy)
    (pre : List Call)
    (hpre1 : alarmQueries pre = []) (hpre2 : createdPolicies pre = []) :
    alarmQueries (finishClone env params sp pre).1 =
      ((createdPolicies (finishClone env params sp pre).1).take
        (alarmQueries (finishClone env params sp pre).1).length).map
        (fun p => [alarmNameFor params.source_asg_name p]) ∧
    (∀ b pr, (finishClone env params sp pre).2 = Outcome.ok b pr →
      (alarmQueries (finishClone env params sp pre).1).length =
        (createdPolicies (finishClone env params sp pre).1).length) := by
  unfold finishClone
  split
  · refine ⟨by simp [hpre1, hpre2], ?_⟩
    intro b pr h
    simp at h
  next asg rest heq =>
    split
    next calls hloop =>
      have hcalls : calls =
          (policyLoop env params.source_asg_name asg.name sp).1 := by
        rw [hloop]
      have hdone : (policyLoop env params.source_asg_name asg.name sp).2 =
          LoopExit.done := by
        rw [hloop]
      subst hcalls
      refine ⟨?_, ?_⟩
      · simp only [alarmQueries_append, createdPolicies_append, hpre1, hpre2,
          List.nil_append]
        exact policyLoop_queries env params.source_asg_name asg.name sp
      · intro b pr h
        simp only [alarmQueries_append, createdPolicies_append, hpre1, hpre2,
          List.nil_append]
        exact policyLoop_done_lengths env params.source_asg_name asg.name sp hdone
    next calls hloop =>
      have hcalls : calls =
          (policyLoop env params.source_asg_name asg.name sp).1 := by
        rw [hloop]
      subst hcalls
      refine ⟨?_, ?_⟩
      · simp only [alarmQueries_append, createdPolicies_append, hpre1, hpre2,
          List.nil_append]
        exact policyLoop_queries env params.source_asg_name asg.name sp
      · intro b pr h
        simp at h
    next calls msg hloop =>
      have hcalls : calls =
          (policyLoop env params.source_asg_name asg.name sp).1 := by
        rw [hloop]
      subst hcalls
      refine ⟨?_, ?_⟩
      · simp only [alarmQueries_append, createdPolicies_append, hpre1, hpre2,
          List.nil_append]
        exact policyLoop_queries env params.source_asg_name asg.name sp
      · intro b pr h
        simp at h

/-- A created policy referencing the new group, as the loop submits it. -/
def pUpNew : Policy := { as_group := some ("new"), scaling_adjustment := 1 }

/-- The scale up alarm after its group dimension is rewritten. -/
def alarmUpNew : Alarm :=
  { alarmUp with dimensions := setDim alarmUp.dimensions asgKey (some ("new")) }

/-- C1: refuted on the code, which contradicts the spec intent. In the run
on envA with paramsA the invocation omits the load balancers override (the
load_balancers key is absent), yet the created group carries load balancer
list [lc-new], the value of the launch_config_name key read at line 83, and
not the source group list [elb-src] that the claim requires. -/
theorem c1_load_balancer_inheritance_code_bug :
    paramsA.load_balancers = none ∧
    gSrc.load_balancers = ["elb-src"] ∧
    Call.createGroup agA ∈ (copy_auto_scaling_group envA paramsA).1 ∧
    agA.load_balancers = ["lc-new"] ∧
    agA.load_balancers ≠ gSrc.load_balancers := by
  decide

/-- C2: every scaling policy and every alarm created by
copy_auto_scaling_group references only the new group. When the refetch by
the new group name returns only groups carrying that name and the new name
differs from the source name, each created policy group reference equals
the new group name and never the source name, and each created alarm
AutoScalingGroupName dimension equals the new group name and never the
source name. -/
theorem c2_created_references_new_group (env : Cloud) (params : Params)
    (hname : ∀ g ∈ env.get_all_groups [params.group_name],
      g.name = params.group_name)
    (hne : params.group_name ≠ params.source_asg_name) :
    (∀ p, Call.createPolicy p ∈ (copy_auto_scaling_group env params).1 →
      p.as_group = params.group_name ∧
      p.as_group ≠ params.source_asg_name) ∧
    (∀ a, Call.createAlarm a ∈ (copy_auto_scaling_group env params).1 →
      getDim a.dimensions asgKey = some params.group_name ∧
      getDim a.dimensions asgKey ≠ some params.source_asg_name) := by
  constructor
  · intro p hp
    rcases copy_calls_shape env params _ hp with h | h | h
    · simp at h
    · obtain ⟨g2, lc2, lrest, hsg2, hlc2, heq⟩ := h
      simp at heq
    · obtain ⟨asg, rest, hre, hmem⟩ := h
      have hasg : asg.name = params.group_name :=
        hname asg (by rw [hre]; exact List.mem_cons_self asg rest)
      rcases policyLoop_calls_shape env params.source_asg_name asg.name _ _ hmem
        with ⟨p2, hp2, hg⟩ | ⟨ns, hn⟩ | ⟨a2, ha2, hg⟩
      · have hpp : p = p2 := by
          injection hp2
        rw [hpp, hg, hasg]
        exact ⟨rfl, hne⟩
      · simp at hn
      · simp at ha2
  · intro a ha
    rcases copy_calls_shape env params _ ha with h | h | h
    · simp at h
    · obtain ⟨g2, lc2, lrest, hsg2, hlc2, heq⟩ := h
      simp at heq
    · obtain ⟨asg, rest, hre, hmem⟩ := h
      have hasg : asg.name = params.group_name :=
        hname asg (by rw [hre]; exact List.mem_cons_self asg rest)
      rcases policyLoop_calls_shape env params.source_asg_name asg.name _ _ hmem
        with ⟨p2, hp2, hg⟩ | ⟨ns, hn⟩ | ⟨a2, ha2, hg⟩
      · simp at hp2
      · simp at hn
      · have haa : a = a2 := by
          injection ha2
        rw [haa, hg, hasg]
        refine ⟨rfl, ?_⟩
        intro hcontra
        exact hne (Option.some.inj hcontra)

/-- Witness for C2 at the concrete cloud envA and parameters paramsA: the
policy and the alarm actually created there reference the new group name
and not the source name. -/
theorem c2_witness :
    (pUpNew.as_group = paramsA.group_name ∧
      pUpNew.as_group ≠ paramsA.source_asg_name) ∧
    (getDim alarmUpNew.dimensions asgKey = some paramsA.group_name ∧
      getDim alarmUpNew.dimensions asgKey ≠ some paramsA.source_asg_name) :=
  ⟨(c2_created_references_new_group envA paramsA (by decide) (by decide)).1
      pUpNew (by decide),
   (c2_created_references_new_group envA paramsA (by decide) (by decide)).2
      alarmUpNew (by decide)⟩

/-- C3: refuted on the code, which contradicts the spec intent by the same
line 83 slip recorded for C1. In the run on envA with paramsA, a normal
invocation that supplies no load balancer override, the created group does
copy the ten listed attributes from the source group and carries the
group_name parameter as its name, but its load balancer list nevertheless
differs from the source list, so more than the name, the launch
configuration and an overridden load balancer list differ. -/
theorem c3_attribute_copy_code_bug :
    (agA.min_size = gSrc.min_size ∧
      agA.max_size = gSrc.max_size ∧
      agA.desired_capacity = gSrc.desired_capacity ∧
      agA.availability_zones = gSrc.availability_zones ∧
      agA.vpc_zone_identifier = gSrc.vpc_zone_identifier ∧
      agA.tags = gSrc.tags ∧
      agA.health_check_period = gSrc.health_check_period ∧
      agA.health_check_type = gSrc.health_check_type ∧
      agA.default_cooldown = gSrc.default_cooldown ∧
      agA.termination_policies = gSrc.termination_policies ∧
      agA.connection = gSrc.connection ∧
      agA.group_name = paramsA.group_name) ∧
    paramsA.load_balancers = none ∧
    Call.createGroup agA ∈ (copy_auto_scaling_group envA paramsA).1 ∧
    agA.load_balancers ≠ gSrc.load_balancers := by
  decide

/-- C4: in every run of copy_auto_scaling_group the sequence of alarm name
lookups is the conventional alarm name of each created policy in order, the
source group name with suffix -ScaleUp for a strictly positive scaling
adjustment and -ScaleDown otherwise; and in a run that returns normally
every created policy has exactly one such lookup. -/
theorem c4_alarm_name_convention (env : Cloud) (params : Params) :
    alarmQueries (copy_auto_scaling_group env params).1 =
      ((createdPolicies (copy_auto_scaling_group env params).1).take
        (alarmQueries (copy_auto_scaling_group env params).1).length).map
        (fun p => [alarmNameFor params.source_asg_name p]) ∧
    (∀ b pr, (copy_auto_scaling_group env params).2 = Outcome.ok b pr →
      (alarmQueries (copy_auto_scaling_group env params).1).length =
        (createdPolicies (copy_auto_scaling_group env params).1).length) := by
  rcases hsg : env.get_all_groups [params.source_asg_name]
    with _ | ⟨g, _ | ⟨g2, gt⟩⟩
  · constructor
    · simp [copy_auto_scaling_group, hsg, alarmQueries, createdPolicies]
    · intro b pr h
      simp [copy_auto_scaling_group, hsg] at h
  · rcases hlc : env.get_all_launch_configurations [params.launch_config_name]
      with _ | ⟨lc, lt⟩
    · constructor
      · simp [copy_auto_scaling_group, hsg, hlc, alarmQueries,
          createdPolicies, callAlarmQuery, callCreatedPolicy]
      · intro b pr h
        simp [copy_auto_scaling_group, hsg, hlc] at h
    · rcases hcr : env.create_auto_scaling_group
          (mkNewGroup params.group_name params.launch_config_name g lc)
        with _ | msg
      · have hqpre : alarmQueries [Call.getLaunchConfigs
            [params.launch_config_name], Call.createGroup
            (mkNewGroup params.group_name params.launch_config_name g lc)] =
            [] := by
          simp [alarmQueries, callAlarmQuery]
        have hppre : createdPolicies [Call.getLaunchConfigs
            [params.launch_config_name], Call.createGroup
            (mkNewGroup params.group_name params.launch_config_name g lc)] =
            [] := by
          simp [createdPolicies, callCreatedPolicy]
        by_cases hw : params.wait_for_instances = some true
        · by_cases h1 : wait_for_new_inst params.wait_timeout
              (mkNewGroup params.group_name params.launch_config_name g
                lc).desired_capacity env.viable_instances
          · by_cases h2 : wait_for_elb params.wait_timeout env.elb_in_service
            · have hred : copy_auto_scaling_group env params =
                  finishClone env params
                    (env.get_all_policies params.source_asg_name)
                    [Call.getLaunchConfigs [params.launch_config_name],
                      Call.createGroup (mkNewGroup params.group_name
                        params.launch_config_name g lc)] := by
                simp [copy_auto_scaling_group, hsg, hlc, hcr, hw, h1, h2]
              rw [hred]
              exact finishClone_queries env params _ _ hqpre hppre
            · have hred : copy_auto_scaling_group env params =
                  ([Call.getLaunchConfigs [params.launch_config_name],
                    Call.createGroup (mkNewGroup params.group_name
                      params.launch_config_name g lc)],
                    Outcome.timeoutError) := by
                simp [copy_auto_scaling_group, hsg, hlc, hcr, hw, h1, h2]
              rw [hred]
              constructor
              · simp [alarmQueries, createdPolicies, callAlarmQuery,
                  callCreatedPolicy]
              · intro b pr h
                simp at h
          · have hred : copy_auto_scaling_group env params =
                ([Call.getLaunchConfigs [params.launch_config_name],
                  Call.createGroup (mkNewGroup params.group_name
                    params.launch_config_name g lc)],
                  Outcome.timeoutError) := by
              simp [copy_auto_scaling_group, hsg, hlc, hcr, hw, h1]
            rw [hred]
            constructor
            · simp [alarmQueries, createdPolicies, callAlarmQuery,
                callCreatedPolicy]
            · intro b pr h
              simp at h
        · have hred : copy_auto_scaling_group env params =
              finishClone env params
                (env.get_all_policies params.source_asg_name)
                [Call.getLaunchConfigs [params.launch_config_name],
                  Call.createGroup (mkNewGroup params.group_name
                    params.launch_config_name g lc)] := by
            simp [copy_auto_scaling_group, hsg, hlc, hcr, hw]
          rw [hred]
          exact finishClone_queries env params _ _ hqpre hppre
      · have hred : copy_auto_scaling_group env params =
            ([Call.getLaunchConfigs [params.launch_config_name],
              Call.createGroup (mkNewGroup params.group_name
                params.launch_config_name g lc)], Outcome.failJson msg) := by
          simp [copy_auto_scaling_group, hsg, hlc, hcr]
        rw [hred]
        constructor
        · simp [alarmQueries, createdPolicies, callAlarmQuery,
            callCreatedPolicy]
        · intro b pr h
          simp at h
  · constructor
    · simp [copy_auto_scaling_group, hsg, alarmQueries, createdPolicies]
    · intro b pr h
      simp [copy_auto_scaling_group, hsg] at h

/-- Witness for C4 at the concrete cloud envA and parameters paramsA: both
conjuncts applied to the run that returns normally. -/
theorem c4_witness :
    alarmQueries (copy_auto_scaling_group envA paramsA).1 =
      ((createdPolicies (copy_auto_scaling_group envA paramsA).1).take
        (alarmQueries (copy_auto_scaling_group envA paramsA).1).length).map
        (fun p => [alarmNameFor paramsA.source_asg_name p]) ∧
    (alarmQueries (copy_auto_scaling_group envA paramsA).1).length =
      (createdPolicies (copy_auto_scaling_group envA paramsA).1).length :=
  ⟨(c4_alarm_name_convention envA paramsA).1,
   (c4_alarm_name_convention envA paramsA).2 true gNew (by decide)⟩

/-- C5: when the source group lookup returns zero matches or at least two
matches, copy_auto_scaling_group fails with the unable to find source group
message and records no cloud calls at all, so in particular no group,
policy or alarm creation happens. -/
theorem c5_source_not_found (env : Cloud) (params : Params)
    (h : env.get_all_groups [params.source_asg_name] = [] ∨
      2 ≤ (env.get_all_groups [params.source_asg_name]).length) :
    (copy_auto_scaling_group env params).2 =
      Outcome.failJson (("Unable to find source group ") ++
        optStr params.source_asg_name) ∧
    (copy_auto_scaling_group env params).1 = [] := by
  rcases hsg : env.get_all_groups [params.source_asg_name]
    with _ | ⟨g, _ | ⟨g2, gt⟩⟩
  · exact ⟨by simp [copy_auto_scaling_group, hsg],
      by simp [copy_auto_scaling_group, hsg]⟩
  · rw [hsg] at h
    simp at h
  · exact ⟨by simp [copy_auto_scaling_group, hsg],
      by simp [copy_auto_scaling_group, hsg]⟩

/-- A cloud in which the source group lookup finds nothing. -/
def envEmpty : Cloud := { envA with get_all_groups := fun _ => [] }

/-- Witness for C5 at the concrete cloud envEmpty: the run fails with the
unable to find source group message and makes no calls. -/
theorem c5_witness :
    (copy_auto_scaling_group envEmpty paramsA).2 =
      Outcome.failJson (("Unable to find source group ") ++
        optStr paramsA.source_asg_name) ∧
    (copy_auto_scaling_group envEmpty paramsA).1 = [] :=
  c5_source_not_found envEmpty paramsA (Or.inl (by decide))

/-- C6: when the provider rejects the create group call with a message, the
run fails with exactly that message and no policy creation call and no
alarm creation call is made. -/
theorem c6_create_rejected (env : Cloud) (params : Params)
    (source_group : Group) (launch_config : LaunchConfig)
    (lrest : List LaunchConfig) (msg : String)
    (hsg : env.get_all_groups [params.source_asg_name] = [source_group])
    (hlc : env.get_all_launch_configurations [params.launch_config_name] =
      launch_config :: lrest)
    (hcr : env.create_auto_scaling_group (mkNewGroup params.group_name
      params.launch_config_name source_group launch_config) = some msg) :
    (copy_auto_scaling_group env params).2 = Outcome.failJson msg ∧
    (∀ p, Call.createPolicy p ∉ (copy_auto_scaling_group env params).1) ∧
    (∀ a, Call.createAlarm a ∉ (copy_auto_scaling_group env params).1) := by
  have htr : copy_auto_scaling_group env params =
      ([Call.getLaunchConfigs [params.launch_config_name],
        Call.createGroup (mkNewGroup params.group_name
          params.launch_config_name source_group launch_config)],
        Outcome.failJson msg) := by
    simp [copy_auto_scaling_group, hsg, hlc, hcr]
  rw [htr]
  refine ⟨rfl, ?_, ?_⟩
  · intro p hp
    simp at hp
  · intro a ha
    simp at ha

/-- A cloud that rejects every create group call. -/
def envReject : Cloud :=
  { envA with create_auto_scaling_group := fun _ => some ("boom") }

/-- Witness for C6 at the concrete cloud envReject: the run fails with the
provider message and creates no policy. -/
theorem c6_witness :
    (copy_auto_scaling_group envReject paramsA).2 =
      Outcome.failJson ("boom") ∧
    Call.createPolicy pUpNew ∉ (copy_auto_scaling_group envReject paramsA).1 :=
  ⟨(c6_create_rejected envReject paramsA gSrc lcNew [] ("boom")
      (by decide) (by decide) (by decide)).1,
   (c6_create_rejected envReject paramsA gSrc lcNew [] ("boom")
      (by decide) (by decide) (by decide)).2.1 pUpNew⟩

/-- C7: with wait_for_instances true and a wait timeout given, a run that
passes group creation blocks on the modelled instance wait and then the
modelled load balancer wait, and ends with the timeout error exactly when
no poll tick within the timeout shows the desired capacity of instances
healthy, or the instances become healthy but no tick within the timeout
shows the load balancer registration complete. -/
theorem c7_wait_blocks_until_ready_or_times_out (env : Cloud)
    (params : Params) (source_group : Group) (launch_config : LaunchConfig)
    (lrest : List LaunchConfig) (t : Nat)
    (hsg : env.get_all_groups [params.source_asg_name] = [source_group])
    (hlc : env.get_all_launch_configurations [params.launch_config_name] =
      launch_config :: lrest)
    (hcr : env.create_auto_scaling_group (mkNewGroup params.group_name
      params.launch_config_name source_group launch_config) = none)
    (hw : params.wait_for_instances = some true)
    (ht : params.wait_timeout = some t) :
    (copy_auto_scaling_group env params).2 = Outcome.timeoutError ↔
      ¬ ((∃ i, i ≤ t ∧
            source_group.desired_capacity ≤ env.viable_instances i) ∧
         (∃ i, i ≤ t ∧ env.elb_in_service i = true)) := by
  have hinst : wait_for_new_inst params.wait_timeout
      (mkNewGroup params.group_name params.launch_config_name source_group
        launch_config).desired_capacity env.viable_instances = true ↔
      (∃ i, i ≤ t ∧
        source_group.desired_capacity ≤ env.viable_instances i) := by
    simp [wait_for_new_inst, ht, List.any_eq_true, List.mem_range,
      Nat.lt_succ_iff, mkNewGroup]
  have helb : wait_for_elb params.wait_timeout env.elb_in_service = true ↔
      (∃ i, i ≤ t ∧ env.elb_in_service i = true) := by
    simp [wait_for_elb, ht, List.any_eq_true, List.mem_range,
      Nat.lt_succ_iff]
  by_cases h1 : wait_for_new_inst params.wait_timeout
      (mkNewGroup params.group_name params.launch_config_name source_group
        launch_config).desired_capacity env.viable_instances
  · by_cases h2 : wait_for_elb params.wait_timeout env.elb_in_service
    · have hred : copy_auto_scaling_group env params =
          finishClone env params
            (env.get_all_policies params.source_asg_name)
            [Call.getLaunchConfigs [params.launch_config_name],
              Call.createGroup (mkNewGroup params.group_name
                params.launch_config_name source_group launch_config)] := by
        simp [copy_auto_scaling_group, hsg, hlc, hcr, hw, h1, h2]
      rw [hred]
      constructor
      · intro hto
        exact absurd hto (finishClone_no_timeout env params _ _)
      · intro hn
        exact absurd ⟨hinst.mp h1, helb.mp h2⟩ hn
    · have hred : (copy_auto_scaling_group env params).2 =
          Outcome.timeoutError := by
        simp [copy_auto_scaling_group, hsg, hlc, hcr, hw, h1, h2]
      simp only [hred, true_iff]
      intro hcon
      exact h2 (helb.mpr hcon.2)
  · have hred : (copy_auto_scaling_group env params).2 =
        Outcome.timeoutError := by
      simp [copy_auto_scaling_group, hsg, hlc, hcr, hw, h1]
    simp only [hred, true_iff]
    intro hcon
    exact h1 (hinst.mpr hcon.1)

/-- A cloud in which no instance ever reports healthy. -/
def envT : Cloud := { envA with viable_instances := fun _ => 0 }

/-- Parameters requesting the wait with a timeout of three ticks. -/
def paramsW : Params :=
  { paramsA with wait_for_instances := some true, wait_timeout := some 3 }

/-- Witness for C7 at the concrete cloud envT: four healthy instances are
required, none ever appears, and the run ends with the timeout error. -/
theorem c7_witness :
    (copy_auto_scaling_group envT paramsW).2 = Outcome.timeoutError := by
  have h := c7_wait_blocks_until_ready_or_times_out envT paramsW gSrc lcNew
    [] 3 (by decide) (by decide) (by decide) (by decide) (by decide)
  refine h.mpr ?_
  rintro ⟨⟨i, hi, hcap⟩, -⟩
  have hz : envT.viable_instances i = 0 := rfl
  have hd : gSrc.desired_capacity = 4 := rfl
  rw [hz, hd] at hcap
  exact absurd hcap (by omega)

/-- C8: the launch configuration lookup, the new group refetch and the
alarm lookup each take element zero without a guard: whenever one of them
returns the empty list at the point it is reached, the run ends with the
uncaught IndexError outcome, not with one of the named failure messages. -/
theorem c8_unguarded_element_zero (env : Cloud) (params : Params)
    (source_group : Group) :
    (env.get_all_groups [params.source_asg_name] = [source_group] →
      env.get_all_launch_configurations [params.launch_config_name] = [] →
      (copy_auto_scaling_group env params).2 = Outcome.indexError) ∧
    (∀ launch_config lrest,
      env.get_all_groups [params.source_asg_name] = [source_group] →
      env.get_all_launch_configurations [params.launch_config_name] =
        launch_config :: lrest →
      env.create_auto_scaling_group (mkNewGroup params.group_name
        params.launch_config_name source_group launch_config) = none →
      params.wait_for_instances ≠ some true →
      env.get_all_groups [params.group_name] = [] →
      (copy_auto_scaling_group env params).2 = Outcome.indexError) ∧
    (∀ launch_config lrest as_group grest policy prest,
      env.get_all_groups [params.source_asg_name] = [source_group] →
      env.get_all_launch_configurations [params.launch_config_name] =
        launch_config :: lrest →
      env.create_auto_scaling_group (mkNewGroup params.group_name
        params.launch_config_name source_group launch_config) = none →
      params.wait_for_instances ≠ some true →
      env.get_all_groups [params.group_name] = as_group :: grest →
      env.get_all_policies params.source_asg_name = policy :: prest →
      env.create_scaling_policy { policy with as_group := as_group.name } =
        none →
      env.describe_alarms [alarmNameFor params.source_asg_name
        { policy with as_group := as_group.name }] = [] →
      (copy_auto_scaling_group env params).2 = Outcome.indexError) := by
  refine ⟨?_, ?_, ?_⟩
  · intro hsg hlc
    simp [copy_auto_scaling_group, hsg, hlc]
  · intro launch_config lrest hsg hlc hcr hw hre
    simp [copy_auto_scaling_group, hsg, hlc, hcr, hw, finishClone, hre]
  · intro launch_config lrest as_group grest policy prest hsg hlc hcr hw hre
      hpol hcp hda
    simp [copy_auto_scaling_group, hsg, hlc, hcr, hw, finishClone, hre,
      hpol, policyLoop, hcp, hda]

/-- A cloud with no launch configurations. -/
def envNoLC : Cloud :=
  { envA with get_all_launch_configurations := fun _ => [] }

/-- A cloud in which the refetch of the new group finds nothing. -/
def envNoRefetch : Cloud :=
  { envA with
    get_all_groups := fun ns =>
      if ns = [some ("src")] then [gSrc] else [] }

/-- A cloud with no alarms. -/
def envNoAlarm : Cloud := { envA with describe_alarms := fun _ => [] }

/-- Witness for C8 at three concrete clouds, one per unguarded lookup: each
empty result ends the run with the IndexError outcome. -/
theorem c8_witness :
    (copy_auto_scaling_group envNoLC paramsA).2 = Outcome.indexError ∧
    (copy_auto_scaling_group envNoRefetch paramsA).2 = Outcome.indexError ∧
    (copy_auto_scaling_group envNoAlarm paramsA).2 = Outcome.indexError :=
  ⟨(c8_unguarded_element_zero envNoLC paramsA gSrc).1 (by decide) (by decide),
   (c8_unguarded_element_zero envNoRefetch paramsA gSrc).2.1 lcNew []
     (by decide) (by decide) (by decide) (by decide) (by decide),
   (c8_unguarded_element_zero envNoAlarm paramsA gSrc).2.2 lcNew [] gNew []
     pUp [pDown] (by decide) (by decide) (by decide) (by decide) (by decide)
     (by decide) (by decide) (by decide)⟩

/-- C9: when the launch_config_name parameter holds a non empty string s,
every group created by copy_auto_scaling_group carries the one element load
balancer list [s], whatever value the separate load_balancers parameter
holds: line 83 reads the override from the launch_config_name key. -/
theorem c9_override_read_from_launch_config_key (env : Cloud)
    (params : Params) (s : String)
    (hlcn : params.launch_config_name = some s) (hs : s ≠ "") :
    ∀ ag, Call.createGroup ag ∈ (copy_auto_scaling_group env params).1 →
      ag.load_balancers = [s] := by
  intro ag hag
  rcases copy_calls_shape env params _ hag with h | h | h
  · simp at h
  · obtain ⟨g2, lc2, lrest, hsg2, hlc2, heq⟩ := h
    have hagval : ag = mkNewGroup params.group_name params.launch_config_name
        g2 lc2 := by
      injection heq
    subst hagval
    have hne : s.isEmpty = false := by
      rw [Bool.eq_false_iff]
      intro hcon
      exact hs ((String.isEmpty_iff s).mp hcon)
    simp [mkNewGroup, lbChoice, hlcn, hne]
  · obtain ⟨asg, rest, hre, hmem⟩ := h
    rcases policyLoop_calls_shape env params.source_asg_name asg.name _ _ hmem
      with ⟨p2, hp2, hg⟩ | ⟨ns, hn⟩ | ⟨a2, ha2, hg⟩
    · simp at hp2
    · simp at hn
    · simp at ha2

/-- Witness for C9 at the concrete cloud envA: paramsA carries no
load_balancers value at all, yet the created group has load balancer list
[lc-new], the launch_config_name value. -/
theorem c9_witness : agA.load_balancers = [("lc-new" : String)] :=
  c9_override_read_from_launch_config_key envA paramsA ("lc-new")
    (by decide) (by decide) agA (by decide)

/-- C10: through the declared invocation surface, whose argument spec names
only the region, source_asg_name and name keys, the group_name,
launch_config_name, wait_for_instances and wait_timeout reads of
copy_auto_scaling_group are all absent, so every created group carries the
absent name none rather than the supplied new group name, and every launch
configuration lookup queries the absent name none. -/
theorem c10_declared_surface_reads_absent_keys (env : Cloud)
    (region source name : String) :
    (main_params region source name).group_name = none ∧
    (main_params region source name).launch_config_name = none ∧
    (main_params region source name).wait_for_instances = none ∧
    (main_params region source name).wait_timeout = none ∧
    (∀ ag, Call.createGroup ag ∈
        (copy_auto_scaling_group env (main_params region source name)).1 →
      ag.group_name = none ∧ ag.group_name ≠ some name) ∧
    (∀ q, Call.getLaunchConfigs q ∈
        (copy_auto_scaling_group env (main_params region source name)).1 →
      q = [none]) := by
  refine ⟨rfl, rfl, rfl, rfl, ?_, ?_⟩
  · intro ag hag
    rcases copy_calls_shape env (main_params region source name) _ hag
      with h | h | h
    · simp at h
    · obtain ⟨g2, lc2, lrest, hsg2, hlc2, heq⟩ := h
      have hagval : ag = mkNewGroup (main_params region source name).group_name
          (main_params region source name).launch_config_name g2 lc2 := by
        injection heq
      subst hagval
      exact ⟨rfl, by simp [main_params, mkNewGroup]⟩
    · obtain ⟨asg, rest, hre, hmem⟩ := h
      rcases policyLoop_calls_shape env
          (main_params region source name).source_asg_name asg.name _ _ hmem
        with ⟨p2, hp2, hg⟩ | ⟨ns, hn⟩ | ⟨a2, ha2, hg⟩
      · simp at hp2
      · simp at hn
      · simp at ha2
  · intro q hq
    rcases copy_calls_shape env (main_params region source name) _ hq
      with h | h | h
    · injection h
    · obtain ⟨g2, lc2, lrest, hsg2, hlc2, heq⟩ := h
      simp at heq
    · obtain ⟨asg, rest, hre, hmem⟩ := h
      rcases policyLoop_calls_shape env
          (main_params region source name).source_asg_name asg.name _ _ hmem
        with ⟨p2, hp2, hg⟩ | ⟨ns, hn⟩ | ⟨a2, ha2, hg⟩
      · simp at hp2
      · simp at hn
      · simp at ha2

/-- The group whose refetch answers the absent new group name. -/
def gNoName : Group := { gSrc with name := none }

/-- A cloud answering the lookups a main_params run performs. -/
def envMain : Cloud :=
  { envA with
    get_all_groups := fun ns =>
      if ns = [some ("src")] then [gSrc]
      else if ns = [(none : Option String)] then [gNoName] else []
    get_all_policies := fun _ => []
    get_all_launch_configurations := fun ns =>
      if ns = [(none : Option String)] then [lcNew] else [] }

/-- The group the embedding builds for envMain under main_params. -/
def agMain : AutoScalingGroup := mkNewGroup none none gSrc lcNew

/-- Witness for C10 at the concrete cloud envMain: the created group has
name none, not the supplied name, and the launch configuration query is for
the absent name. -/
theorem c10_witness :
    agMain.group_name = none ∧
    agMain.group_name ≠ some ("NewASG") ∧
    ([(none : Option String)]) = [(none : Option String)] := by
  have h := c10_declared_surface_reads_absent_keys envMain ("us-east-1")
    ("src") ("NewASG")
  refine ⟨(h.2.2.2.2.1 agMain (by decide)).1,
    (h.2.2.2.2.1 agMain (by decide)).2,
    h.2.2.2.2.2 [(none : Option String)] (by decide)⟩

end EC2AsgCopy
